import Mathlib

/-!
Verification development for the RETWIN ENTSOE ETL pipeline (src/etl.py).

Shallow embedding conventions:
* Instants are modelled as `Int` seconds since 2024-01-01T00:00:00 UTC
  (the backfill start date used by `historical_load_daywise`).
* The CET offset in force at the reference instant is an explicit
  parameter `off` in seconds (3600 in winter, 7200 in summer); the Python
  code freezes the offset produced by `astimezone` at the reference
  instant and performs all further `replace`/`timedelta` arithmetic with
  that fixed offset, which this model reproduces.
* XML documents are modelled post-parse as lists of time-series records;
  network, parsing and database failures are abstracted as `Except`
  valued oracles, and observable side effects (log lines, mail alerts,
  database inserts) are collected into an `Action` trace.
-/

namespace Etl

/-- Seconds in one day. -/
def secondsPerDay : Int := 86400

/-- Seconds from local midnight to the 22:00 cutoff. -/
def cutoffSeconds : Int := 79200

/-- Model of `get_time_interval`'s resolution dispatch (src/etl.py lines
47-53): "PT15M" gives 15 minutes, "PT30M" 30 minutes, anything else one
hour. Result in seconds. -/
def resolutionDelta (resolution : String) : Int :=
  if resolution = "PT15M" then 900
  else if resolution = "PT30M" then 1800
  else 3600

/-- Model of `get_time_interval` (src/etl.py lines 47-56):
`point_start = start_time + delta * (position - 1)`,
`point_end = point_start + delta`. -/
def get_time_interval (start_time : Int) (resolution : String) (position : Int) :
    Int × Int :=
  let delta := resolutionDelta resolution
  let point_start := start_time + delta * (position - 1)
  (point_start, point_start + delta)

/-- `now_utc.astimezone(cet).replace(hour=22, minute=0, second=0, microsecond=0)`
converted back to a UTC instant: 22:00 local on the local calendar day of
`now`, with `off` the CET offset at `now` (src/etl.py line 294). -/
def todayCutoff (now off : Int) : Int :=
  ((now + off).fdiv secondsPerDay) * secondsPerDay + cutoffSeconds - off

/-- The cutoff one day earlier, i.e. yesterday's 22:00 CET under the fixed
offset model. -/
def yesterdayCutoff (now off : Int) : Int :=
  todayCutoff now off - secondsPerDay

/-- Model of the window computation in `daily_load` (src/etl.py lines
291-299): `period_end` is today's 22:00 CET if that instant has passed,
otherwise yesterday's; `period_start = period_end - timedelta(days=1)`.
Returns `(period_start, period_end)` as UTC instants. -/
def dailyWindow (now off : Int) : Int × Int :=
  let period_end :=
    if todayCutoff now off ≤ now then todayCutoff now off
    else todayCutoff now off - secondsPerDay
  (period_end - secondsPerDay, period_end)

/-- Model of the `historical_end` computation in `historical_load_daywise`
(src/etl.py lines 274-279); structurally identical to the `period_end` of
`daily_load`. -/
def historicalEnd (now off : Int) : Int :=
  if todayCutoff now off ≤ now then todayCutoff now off
  else todayCutoff now off - secondsPerDay

/-- Model of the backfill loop of `historical_load_daywise` (src/etl.py
lines 281-288): starting from `current`, collect each day-start for which
a round of fetch calls is issued; the loop body runs while
`current_day < historical_end` and advances by one day. -/
def backfillDays (current endUtc : Int) : List Int :=
  if _h : current < endUtc then
    current :: backfillDays (current + secondsPerDay) endUtc
  else []
termination_by (endUtc - current).toNat
decreasing_by
  simp only [secondsPerDay]
  omega

/-- Fixed reserve-type code table (src/etl.py line 92). -/
def reserve_map : List (String × String) :=
  [("A51", "AFRR"), ("A52", "FCR"), ("A47", "MFRR"), ("A46", "RR")]

/-- Fixed reserve-source code table (src/etl.py line 93). -/
def reserve_source_map : List (String × String) :=
  [("A04", "Generation"), ("A05", "Load"), ("A03", "Mixed")]

/-- Fixed flow-direction code table (src/etl.py line 94). -/
def direction_map : List (String × String) :=
  [("A01", "Up"), ("A02", "Down"), ("A03", "Up and Down (Symmetric)")]

/-- Python `dict.get(key, d)`: the mapped value when present, otherwise
the fallback `d`. -/
def dictGet (m : List (String × String)) (key d : String) : String :=
  match m.find? (fun p => p.1 == key) with
  | some p => p.2
  | none => d

/-- A parsed `<Point>` element: optional quantity, price and position
sub-elements, numeric content already decoded. -/
structure XPoint where
  quantity : Option Rat
  price : Option Rat
  position : Option Int
  deriving DecidableEq, Repr

/-- A parsed `<Period>` element: decoded UTC start instant, resolution
string, and the contained points. -/
structure XPeriod where
  startTime : Int
  resolution : String
  points : List XPoint
  deriving DecidableEq, Repr

/-- A parsed `<TimeSeries>` element: optional psr-type and flow-direction
codes and the contained periods. -/
structure XTimeSeries where
  psrType : Option String
  flowDirection : Option String
  periods : List XPeriod
  deriving DecidableEq, Repr

/-- A balancing-reserve row as built in src/etl.py lines 121-133; the
formatted `delivery_period` string is represented by its two underlying
instants. -/
structure BalancingRecord where
  pointStart : Int
  pointEnd : Int
  reserve_type : String
  reserve_source : Option String
  direction : Option String
  volume : Option Rat
  price : Option Rat
  price_type : String
  type_of_product : String
  time_horizon : String
  country : String
  control_area : String
  deriving DecidableEq, Repr

/-- A day-ahead price row as built in src/etl.py lines 228-234. -/
structure DayAheadRecord where
  pointStart : Int
  pointEnd : Int
  price_eur_mwh : Rat
  resolution : String
  bidding_zone : String
  country : String
  deriving DecidableEq, Repr

/-- Record construction for one `<Point>` (src/etl.py lines 96-133):
classification fields derive from the time-series and process type via
the fixed code tables with raw passthrough, a missing position defaults
to 1, and the delivery interval comes from `get_time_interval`. -/
def recordForPoint (country_name control_area process_type : String)
    (ts : XTimeSeries) (period : XPeriod) (point : XPoint) : BalancingRecord :=
  let reserve_type := dictGet reserve_map process_type process_type
  let reserve_source := ts.psrType.map (fun c => dictGet reserve_source_map c c)
  let direction := ts.flowDirection.map (fun c => dictGet direction_map c c)
  let price_type :=
    if direction = some "Up" ∨ direction = some "Down" then "Average" else "Marginal"
  let position := match point.position with | some p => p | none => 1
  let iv := get_time_interval period.startTime period.resolution position
  { pointStart := iv.1, pointEnd := iv.2,
    reserve_type := reserve_type, reserve_source := reserve_source,
    direction := direction, volume := point.quantity, price := point.price,
    price_type := price_type, type_of_product := "Standard",
    time_horizon := "Daily", country := country_name,
    control_area := control_area }

/-- All records emitted for one process type's parsed document: the
TimeSeries/Period/Point loops of src/etl.py lines 96-133. -/
def recordsForProcessType (country_name control_area process_type : String)
    (tss : List XTimeSeries) : List BalancingRecord :=
  tss.flatMap (fun ts =>
    ts.periods.flatMap (fun period =>
      period.points.map (recordForPoint country_name control_area process_type ts period)))

/-- Observable side effects of a fetch-and-store call. -/
inductive Action where
  | logError (msg : String)
  | logWarning (msg : String)
  | logInfo (msg : String)
  | dbInsert (table : String) (rows : Nat)
  | email (subject : String)
  deriving DecidableEq, Repr

/-- Whether an action writes to the database. -/
def isDbWrite : Action → Bool
  | .dbInsert _ _ => true
  | _ => false

/-- The four balancing process types queried (src/etl.py line 72). -/
def process_types : List String := ["A51", "A52", "A47", "A46"]

/-- The per-process-type loop of `fetch_and_store_data` (src/etl.py lines
75-135) under the simplifying assumption that each process type's
fetch-and-parse is atomic: a failure is logged and contributes no
records, a success appends its records. `collectBalancingPartial` below
refines this by letting a parse raise mid-traversal with records already
appended. Returns the log actions and the accumulated data. -/
def collectBalancing (country_name control_area : String)
    (fetch : String → Except String (List XTimeSeries)) :
    List String → List Action × List BalancingRecord
  | [] => ([], [])
  | pt :: rest =>
    let tail := collectBalancing country_name control_area fetch rest
    match fetch pt with
    | .ok tss =>
        (tail.1, recordsForProcessType country_name control_area pt tss ++ tail.2)
    | .error e =>
        (Action.logError ("Failed to fetch " ++ pt ++ ": " ++ e) :: tail.1, tail.2)

/-- The records a single process type contributes under the fetch oracle:
its parsed records on success, none on failure. -/
def recordsOf (country_name control_area : String)
    (fetch : String → Except String (List XTimeSeries)) (pt : String) :
    List BalancingRecord :=
  match fetch pt with
  | .ok tss => recordsForProcessType country_name control_area pt tss
  | .error _ => []

/-- Model of `fetch_and_store_data` (src/etl.py lines 59-188): after the
per-process-type loop, no records means a warning and a normal return;
otherwise the database transaction (abstracted by `db`) runs, and an
escaping exception is logged, alerted and re-raised. -/
def fetchAndStoreData (country_name control_area : String)
    (fetch : String → Except String (List XTimeSeries))
    (db : Except String Unit) : List Action × Except String Unit :=
  let step := collectBalancing country_name control_area fetch process_types
  if step.2 = [] then
    (step.1 ++ [Action.logWarning ("No data for " ++ country_name ++ " " ++ control_area)],
     Except.ok ())
  else
    match db with
    | .ok _ =>
        (step.1 ++ [Action.dbInsert "entsoe_load_data" step.2.length,
          Action.logInfo ("Inserted rows for " ++ country_name)], Except.ok ())
    | .error e =>
        (step.1 ++ [Action.logError ("ETL failed for " ++ country_name ++ ": " ++ e),
          Action.email "ENTSOE ETL Failed"], Except.error e)

/-- Records emitted by the day-ahead parser (src/etl.py lines 214-234): a
point lacking its position or price sub-element is skipped. -/
def dayaheadRecords (country_name bidding_zone : String)
    (tss : List XTimeSeries) : List DayAheadRecord :=
  tss.flatMap (fun ts =>
    ts.periods.flatMap (fun period =>
      period.points.filterMap (fun point =>
        match point.position, point.price with
        | some pos, some pr =>
            let iv := get_time_interval period.startTime period.resolution pos
            some { pointStart := iv.1, pointEnd := iv.2, price_eur_mwh := pr,
                   resolution := period.resolution, bidding_zone := bidding_zone,
                   country := country_name }
        | _, _ => none)))

/-- Model of `fetch_and_store_dayahead_prices` (src/etl.py lines 191-268):
a fetch/parse failure is logged, alerted and re-raised; zero records give
a warning and a normal return; otherwise the database transaction runs. -/
def fetchAndStoreDayahead (country_name bidding_zone : String)
    (fetchRes : Except String (List XTimeSeries))
    (db : Except String Unit) : List Action × Except String Unit :=
  match fetchRes with
  | .error e =>
      ([Action.logError ("Day-ahead ETL failed for " ++ country_name ++ ": " ++ e),
        Action.email "ENTSOE Day-ahead ETL Failed"], Except.error e)
  | .ok tss =>
    let data := dayaheadRecords country_name bidding_zone tss
    if data = [] then
      ([Action.logWarning ("No Day-ahead data for " ++ country_name)], Except.ok ())
    else
      match db with
      | .ok _ =>
          ([Action.dbInsert "day_ahead_prices" data.length,
            Action.logInfo ("Inserted Day-ahead rows for " ++ country_name)], Except.ok ())
      | .error e =>
          ([Action.logError ("Day-ahead ETL failed for " ++ country_name ++ ": " ++ e),
            Action.email "ENTSOE Day-ahead ETL Failed"], Except.error e)

/-- Model of `send_email_alert` (src/etl.py lines 22-35): the body
(message construction, connection, starttls, login, send, quit) is
abstracted by the oracle `body`; the surrounding try/except turns any
failure into an error log line, so the call itself returns normally in
both cases. -/
def sendEmailAlert (subject _message : String) (body : Except String Unit) :
    Except String (List Action) :=
  Except.ok (match body with
    | .ok _ => [Action.email subject, Action.logInfo "Alert email sent successfully."]
    | .error e => [Action.logError ("Failed to send alert email: " ++ e)])

/-- A sample parsed time-series with reserve-source code "A04", direction
code "A01" and a single point, instantiating the spec's worked example. -/
def exampleTS : XTimeSeries :=
  { psrType := some "A04", flowDirection := some "A01",
    periods := [{ startTime := 0, resolution := "PT15M",
                  points := [{ quantity := some 5, price := some 10,
                               position := some 1 }] }] }

/-- The record `fetch_and_store_data` emits for `exampleTS` under process
type "A52". -/
def exampleRecord : BalancingRecord :=
  { pointStart := 0, pointEnd := 900, reserve_type := "FCR",
    reserve_source := some "Generation", direction := some "Up",
    volume := some 5, price := some 10, price_type := "Average",
    type_of_product := "Standard", time_horizon := "Daily",
    country := "Germany-TenneT", control_area := "10YDE-EON------1" }

/-- A raw `<Period>` element before decoding: `start` or `resolution` is
`none` when the sub-element is missing or its text unparsable, in which
case the source's `.text` access or `strptime` raises mid-loop
(src/etl.py lines 109-111). -/
structure RawPeriod where
  start : Option Int
  resolution : Option String
  points : List XPoint
  deriving DecidableEq, Repr

/-- A raw `<TimeSeries>` element whose periods may fail to decode. -/
structure RawTimeSeries where
  psrType : Option String
  flowDirection : Option String
  periods : List RawPeriod
  deriving DecidableEq, Repr

/-- Outcome of the HTTP request and XML root parse for one process type
(src/etl.py lines 88-91): either that step raised, or a list of raw
time-series elements was obtained. -/
inductive FetchStep where
  | failed (e : String)
  | fetched (doc : List RawTimeSeries)
  deriving DecidableEq, Repr

/-- The Period loop of src/etl.py lines 108-133 for one time-series:
records are appended point-by-point to the shared data list; a period
whose start or resolution fails to decode raises there, keeping the
records appended so far. `recordForPoint` reads only the two code fields
of its time-series argument, so those are passed through. -/
def parsePeriods (country_name control_area process_type : String)
    (ts : RawTimeSeries) :
    List RawPeriod → List BalancingRecord × Except String Unit
  | [] => ([], Except.ok ())
  | period :: rest =>
    match period.start, period.resolution with
    | some st, some res =>
      let recs := period.points.map (recordForPoint country_name control_area
        process_type ⟨ts.psrType, ts.flowDirection, []⟩ ⟨st, res, period.points⟩)
      let tail := parsePeriods country_name control_area process_type ts rest
      (recs ++ tail.1, tail.2)
    | _, _ => ([], Except.error "Period parse failed")

/-- The TimeSeries loop of src/etl.py lines 96-133 over a raw document:
a mid-parse exception stops the traversal, keeping every record already
appended to the shared data list. -/
def parseTimeSeries (country_name control_area process_type : String) :
    List RawTimeSeries → List BalancingRecord × Except String Unit
  | [] => ([], Except.ok ())
  | ts :: rest =>
    let head := parsePeriods country_name control_area process_type ts ts.periods
    match head.2 with
    | Except.error e => (head.1, Except.error e)
    | Except.ok _ =>
      let tail := parseTimeSeries country_name control_area process_type rest
      (head.1 ++ tail.1, tail.2)

/-- The records one process type leaves in the shared data list: none
when its fetch failed, otherwise everything its parse appended before
completing or raising. -/
def partialRecordsOf (country_name control_area : String)
    (fetch : String → FetchStep) (q : String) : List BalancingRecord :=
  match fetch q with
  | .failed _ => []
  | .fetched doc => (parseTimeSeries country_name control_area q doc).1

/-- Refinement of the per-process-type loop of `fetch_and_store_data`
(src/etl.py lines 75-135) in which a parse may raise mid-traversal: the
records already appended to the shared data list are kept, the exception
is caught and logged, and the loop continues with the next process
type. -/
def collectBalancingPartial (country_name control_area : String)
    (fetch : String → FetchStep) :
    List String → List Action × List BalancingRecord
  | [] => ([], [])
  | q :: rest =>
    let tail := collectBalancingPartial country_name control_area fetch rest
    match fetch q with
    | .failed e =>
        (Action.logError ("Failed to fetch " ++ q ++ ": " ++ e) :: tail.1, tail.2)
    | .fetched doc =>
      let parsed := parseTimeSeries country_name control_area q doc
      match parsed.2 with
      | Except.ok _ => (tail.1, parsed.1 ++ tail.2)
      | Except.error e =>
          (Action.logError ("Failed to fetch " ++ q ++ ": " ++ e) :: tail.1,
           parsed.1 ++ tail.2)

/-- `fetch_and_store_data` (src/etl.py lines 59-188) over the refined
loop: identical post-loop behaviour to `fetchAndStoreData`. -/
def fetchAndStoreDataPartial (country_name control_area : String)
    (fetch : String → FetchStep) (db : Except String Unit) :
    List Action × Except String Unit :=
  let step := collectBalancingPartial country_name control_area fetch process_types
  if step.2 = [] then
    (step.1 ++ [Action.logWarning ("No data for " ++ country_name ++ " " ++ control_area)],
     Except.ok ())
  else
    match db with
    | .ok _ =>
        (step.1 ++ [Action.dbInsert "entsoe_load_data" step.2.length,
          Action.logInfo ("Inserted rows for " ++ country_name)], Except.ok ())
    | .error e =>
        (step.1 ++ [Action.logError ("ETL failed for " ++ country_name ++ ": " ++ e),
          Action.email "ENTSOE ETL Failed"], Except.error e)

/-- A document whose second time-series has an undecodable period: the
parse appends the first time-series' record and then raises. -/
def badDoc : List RawTimeSeries :=
  [ { psrType := some "A04", flowDirection := some "A01",
      periods := [{ start := some 0, resolution := some "PT15M",
                    points := [{ quantity := some 5, price := some 10,
                                 position := some 1 }] }] },
    { psrType := some "A04", flowDirection := some "A01",
      periods := [{ start := none, resolution := none, points := [] }] } ]

/-- A fetch oracle returning `badDoc` for process type "A51" and an empty
document otherwise. -/
def badFetch (q : String) : FetchStep :=
  if q = "A51" then FetchStep.fetched badDoc else FetchStep.fetched []

/-- Top-level orchestration steps (src/etl.py lines 306-320). -/
inductive MainAction where
  | checkSentinel
  | runBackfill
  | writeSentinel
  | runDaily
  | logCompleted
  | logFailure
  | sendAlert
  deriving DecidableEq, Repr

/-- Model of the `__main__` block (src/etl.py lines 306-320): check the
sentinel file; when it is absent run the historical backfill and, if that
completed, write the sentinel; then run the daily load; a failure
anywhere is caught at top level, logged and alerted without re-raising. -/
def mainRun (sentinelExists : Bool)
    (backfill daily : Except String Unit) : List MainAction :=
  MainAction.checkSentinel ::
    (if sentinelExists then
      match daily with
      | .ok _ => [MainAction.runDaily, MainAction.logCompleted]
      | .error _ => [MainAction.runDaily, MainAction.logFailure, MainAction.sendAlert]
    else
      match backfill with
      | .error _ => [MainAction.runBackfill, MainAction.logFailure, MainAction.sendAlert]
      | .ok _ =>
        match daily with
        | .ok _ => [MainAction.runBackfill, MainAction.writeSentinel, MainAction.runDaily,
                    MainAction.logCompleted]
        | .error _ => [MainAction.runBackfill, MainAction.writeSentinel, MainAction.runDaily,
                       MainAction.logFailure, MainAction.sendAlert])

end Etl

namespace Etl

/-- C2: for every period start, every resolution among 15, 30 and 60
minutes and every position p ≥ 1, `get_time_interval` returns
`point_start = period_start + (p-1)·R` and `point_end = point_start + R`;
in particular start 2024-01-01T00:00Z (instant 0), resolution "PT15M" and
position 5 yield point_start 2024-01-01T01:00Z (3600) and point_end
2024-01-01T01:15Z (4500). -/
theorem get_time_interval_correct (s p : Int) (_hp : 1 ≤ p) :
    get_time_interval s "PT15M" p = (s + 900 * (p - 1), s + 900 * (p - 1) + 900) ∧
    get_time_interval s "PT30M" p = (s + 1800 * (p - 1), s + 1800 * (p - 1) + 1800) ∧
    get_time_interval s "PT60M" p = (s + 3600 * (p - 1), s + 3600 * (p - 1) + 3600) ∧
    get_time_interval 0 "PT15M" 5 = (3600, 4500) := by
  refine ⟨?_, ?_, ?_, by decide⟩ <;> simp [get_time_interval, resolutionDelta]

/-- Witness for C2 at start instant 0, position 5. -/
theorem get_time_interval_correct_witness :
    (1 : Int) ≤ 5 ∧
      get_time_interval 0 "PT15M" 5 = (0 + 900 * (5 - 1), 0 + 900 * (5 - 1) + 900) :=
  ⟨by decide, (get_time_interval_correct 0 5 (by decide)).1⟩

/-- C3 as stated is false: with the loop starting at 2024-01-01T00:00Z
(instant 0) and `historical_end` 2024-01-03T21:00Z (instant 248400), a
fetch round is issued for 2024-01-03T00:00Z (instant 172800) as well,
because 172800 < 248400 passes the `current_day < historical_end`
check. -/
theorem backfill_days_counterexample :
    (172800 : Int) ∈ backfillDays 0 248400 ∧ (172800 : Int) ∉ ([0, 86400] : List Int) := by
  constructor
  · rw [backfillDays]
    rw [backfillDays]
    rw [backfillDays]
    norm_num [secondsPerDay]
  · decide

/-- C3 amended: the backfill loop started at 2024-01-01T00:00Z with
`historical_end` 2024-01-03T21:00Z issues fetch calls for exactly the days
2024-01-01, 2024-01-02 and 2024-01-03 (instants 0, 86400, 172800) and for
no other day. -/
theorem backfill_days_amended :
    backfillDays 0 248400 = [0, 86400, 172800] := by
  rw [backfillDays]
  rw [backfillDays]
  rw [backfillDays]
  rw [backfillDays]
  norm_num [secondsPerDay]

/-- C1: for every reference instant, if it is before today's 22:00 CET the
daily window of `daily_load` ends at yesterday's 22:00 CET, if it is at or
after today's 22:00 CET the window ends at today's 22:00 CET, and in both
cases the window is exactly 24 hours long. -/
theorem daily_window_cutoff_correct (now off : Int) :
    (now < todayCutoff now off →
      (dailyWindow now off).2 = yesterdayCutoff now off) ∧
    (todayCutoff now off ≤ now →
      (dailyWindow now off).2 = todayCutoff now off) ∧
    (dailyWindow now off).2 - (dailyWindow now off).1 = 86400 := by
  unfold dailyWindow yesterdayCutoff secondsPerDay
  constructor
  · intro h
    simp only
    rw [if_neg (by omega)]
  constructor
  · intro h
    simp only
    rw [if_pos h]
  · simp only
    split <;> ring

/-- Witness for C1 at a concrete instant: 2024-01-02T10:00:00Z with winter
offset +01:00 is before that day's 22:00 CET, and the window then ends at
2024-01-01T21:00:00Z (= yesterday's 22:00 CET). -/
theorem daily_window_cutoff_correct_witness :
    (122400 : Int) < todayCutoff 122400 3600 ∧
      (dailyWindow 122400 3600).2 = yesterdayCutoff 122400 3600 :=
  ⟨by decide, (daily_window_cutoff_correct 122400 3600).1 (by decide)⟩

/-- C4 as stated is false on the code: with the sentinel absent and the
historical backfill raising, the exception reaches the top-level handler
and the daily load never runs on that invocation. -/
theorem main_daily_counterexample :
    MainAction.runDaily ∉ mainRun false (Except.error "boom") (Except.ok ()) := by
  decide

/-- C4 amended: on every invocation in which the sentinel file was
present (skip path), or it was absent and the backfill completed without
raising, the daily load executes after the sentinel check; a raising
backfill instead ends the invocation in the top-level handler. -/
theorem main_daily_after_check (sentinelExists : Bool)
    (backfill daily : Except String Unit)
    (h : sentinelExists = true ∨ backfill = Except.ok ()) :
    ∃ rest, mainRun sentinelExists backfill daily = MainAction.checkSentinel :: rest ∧
      MainAction.runDaily ∈ rest := by
  cases sentinelExists with
  | true => cases daily <;> simp [mainRun]
  | false =>
    rcases h with h | h
    · exact absurd h (by simp)
    · cases daily <;> simp [mainRun, h]

/-- Witness for C4: sentinel present, both loads succeed. -/
theorem main_daily_after_check_witness :
    ((true : Bool) = true ∨ (Except.ok () : Except String Unit) = Except.ok ()) ∧
    ∃ rest, mainRun true (Except.ok ()) (Except.ok ()) = MainAction.checkSentinel :: rest ∧
      MainAction.runDaily ∈ rest :=
  ⟨Or.inl rfl, main_daily_after_check true (Except.ok ()) (Except.ok ()) (Or.inl rfl)⟩

/-- The price-type derivation of every record emitted for one process
type: "Average" exactly when the record's direction is Up or Down,
"Marginal" exactly otherwise. -/
lemma price_type_spec (country ca pt : String) (tss : List XTimeSeries)
    (r : BalancingRecord) (hr : r ∈ recordsForProcessType country ca pt tss) :
    (r.price_type = "Average" ↔ (r.direction = some "Up" ∨ r.direction = some "Down")) ∧
    (r.price_type = "Marginal" ↔ ¬(r.direction = some "Up" ∨ r.direction = some "Down")) := by
  simp only [recordsForProcessType, List.mem_flatMap, List.mem_map] at hr
  obtain ⟨ts, _, period, _, point, _, rfl⟩ := hr
  simp only [recordForPoint]
  split <;> rename_i hcond <;> simp_all

/-- Records contributed by any process type under the fetch oracle. -/
lemma mem_collectBalancing (country ca : String)
    (fetch : String → Except String (List XTimeSeries)) (pts : List String)
    (r : BalancingRecord) :
    r ∈ (collectBalancing country ca fetch pts).2 ↔
      ∃ pt ∈ pts, r ∈ recordsOf country ca fetch pt := by
  induction pts with
  | nil => simp [collectBalancing]
  | cons pt rest ih =>
    simp only [collectBalancing]
    cases hf : fetch pt with
    | ok tss => simp [recordsOf, hf, ih]
    | error e => simp [recordsOf, hf, ih]

/-- C5: every balancing record accumulated by the per-process-type loop of
`fetch_and_store_data` has price_type "Average" exactly when its mapped
direction is "Up" or "Down" and "Marginal" exactly otherwise; and process
type "A52" with direction code "A01" yields reserve_type "FCR", direction
"Up", price_type "Average". -/
theorem price_type_average_iff :
    (∀ (country ca : String) (fetch : String → Except String (List XTimeSeries))
       (r : BalancingRecord),
       r ∈ (collectBalancing country ca fetch process_types).2 →
       (r.price_type = "Average" ↔ (r.direction = some "Up" ∨ r.direction = some "Down")) ∧
       (r.price_type = "Marginal" ↔ ¬(r.direction = some "Up" ∨ r.direction = some "Down"))) ∧
    ((recordsForProcessType "Germany-TenneT" "10YDE-EON------1" "A52" [exampleTS]).map
       (fun r => (r.reserve_type, r.direction, r.price_type)) =
     [("FCR", some "Up", "Average")]) := by
  constructor
  · intro country ca fetch r hr
    rw [mem_collectBalancing] at hr
    obtain ⟨pt, _, hr⟩ := hr
    unfold recordsOf at hr
    rcases hf : fetch pt with _ | tss <;> rw [hf] at hr
    · cases hr
    · exact price_type_spec country ca pt tss r hr
  · decide

/-- Witness for C5 on the worked example record. -/
theorem price_type_average_iff_witness :
    (exampleRecord ∈ (collectBalancing "Germany-TenneT" "10YDE-EON------1"
        (fun _ => Except.ok [exampleTS]) process_types).2) ∧
    (exampleRecord.price_type = "Average" ↔
      (exampleRecord.direction = some "Up" ∨ exampleRecord.direction = some "Down")) :=
  ⟨by decide,
   (price_type_average_iff.1 "Germany-TenneT" "10YDE-EON------1"
     (fun _ => Except.ok [exampleTS]) exampleRecord (by decide)).1⟩

/-- `dict.get(k, d)` falls back to `d` when `k` is not a key. -/
lemma dictGet_not_mem (m : List (String × String)) (k d : String)
    (h : ∀ p ∈ m, p.1 ≠ k) : dictGet m k d = d := by
  have hfind : m.find? (fun p => p.1 == k) = none := by
    rw [List.find?_eq_none]
    intro x hx
    simpa using h x hx
  simp [dictGet, hfind]

/-- C6: reserve-source and direction codes outside the fixed mapping
tables pass through verbatim into every emitted record, and no point is
dropped or rejected on account of the unmapped codes. -/
theorem unmapped_codes_passthrough (srcCode dirCode : String)
    (hsrc : ∀ p ∈ reserve_source_map, p.1 ≠ srcCode)
    (hdir : ∀ p ∈ direction_map, p.1 ≠ dirCode)
    (country ca pt : String) (periods : List XPeriod) :
    (∀ r ∈ recordsForProcessType country ca pt
        [{ psrType := some srcCode, flowDirection := some dirCode, periods := periods }],
      r.reserve_source = some srcCode ∧ r.direction = some dirCode) ∧
    (recordsForProcessType country ca pt
        [{ psrType := some srcCode, flowDirection := some dirCode, periods := periods }]).length =
      (periods.map (fun period => period.points.length)).sum := by
  constructor
  · intro r hr
    simp only [recordsForProcessType, List.mem_flatMap, List.mem_map,
      List.mem_singleton] at hr
    obtain ⟨ts, hts, period, _, point, _, rfl⟩ := hr
    subst hts
    simp [recordForPoint, dictGet_not_mem reserve_source_map srcCode srcCode hsrc,
      dictGet_not_mem direction_map dirCode dirCode hdir]
  · simp [recordsForProcessType, List.length_flatMap, Function.comp_def]

/-- Witness for C6 with the unmapped codes "Z9" (source) and "Z8"
(direction) on a one-point document. -/
theorem unmapped_codes_passthrough_witness :
    (∀ p ∈ reserve_source_map, p.1 ≠ "Z9") ∧
    (∀ r ∈ recordsForProcessType "c" "a" "A51"
        [{ psrType := some "Z9", flowDirection := some "Z8",
           periods := [{ startTime := 0, resolution := "PT15M",
                         points := [{ quantity := none, price := none,
                                      position := some 1 }] }] }],
      r.reserve_source = some "Z9" ∧ r.direction = some "Z8") :=
  ⟨by decide,
   (unmapped_codes_passthrough "Z9" "Z8" (by decide) (by decide) "c" "a" "A51"
     [{ startTime := 0, resolution := "PT15M",
        points := [{ quantity := none, price := none, position := some 1 }] }]).1⟩

/-- The per-process-type loop emits only error log lines, never database
writes. -/
lemma collectBalancing_no_dbWrite (country ca : String)
    (fetch : String → Except String (List XTimeSeries)) (pts : List String) :
    ∀ a ∈ (collectBalancing country ca fetch pts).1, isDbWrite a = false := by
  induction pts with
  | nil => simp [collectBalancing]
  | cons pt rest ih =>
    intro a ha
    simp only [collectBalancing] at ha
    rcases hf : fetch pt with e | tss <;> rw [hf] at ha
    · rcases List.mem_cons.mp ha with h | h
      · subst h; rfl
      · exact ih a h
    · exact ih a ha

/-- C7: a fetch call whose parsing yields zero records performs no
database write, raises no exception, and returns after logging a warning,
for both the balancing and the day-ahead function. -/
theorem empty_result_no_write (country ca bz : String)
    (fetch : String → Except String (List XTimeSeries))
    (db db2 : Except String Unit) (tss : List XTimeSeries)
    (hbal : (collectBalancing country ca fetch process_types).2 = [])
    (hda : dayaheadRecords country bz tss = []) :
    ((fetchAndStoreData country ca fetch db).2 = Except.ok () ∧
     (∀ a ∈ (fetchAndStoreData country ca fetch db).1, isDbWrite a = false) ∧
     (fetchAndStoreData country ca fetch db).1.getLast? =
       some (Action.logWarning ("No data for " ++ country ++ " " ++ ca))) ∧
    ((fetchAndStoreDayahead country bz (Except.ok tss) db2).2 = Except.ok () ∧
     (∀ a ∈ (fetchAndStoreDayahead country bz (Except.ok tss) db2).1, isDbWrite a = false) ∧
     (fetchAndStoreDayahead country bz (Except.ok tss) db2).1.getLast? =
       some (Action.logWarning ("No Day-ahead data for " ++ country))) := by
  constructor
  · simp only [fetchAndStoreData, hbal, if_pos rfl]
    refine ⟨rfl, ?_, ?_⟩
    · intro a ha
      rcases List.mem_append.mp ha with h | h
      · exact collectBalancing_no_dbWrite country ca fetch process_types a h
      · simp only [List.mem_singleton] at h; subst h; rfl
    · simp
  · rw [show fetchAndStoreDayahead country bz (Except.ok tss) db2 =
        ([Action.logWarning ("No Day-ahead data for " ++ country)], Except.ok ()) from by
      simp [fetchAndStoreDayahead, hda]]
    exact ⟨rfl, by intro a ha; simp only [List.mem_singleton] at ha; subst ha; rfl, rfl⟩

/-- Witness for C7: an all-empty fetch oracle and an empty day-ahead
document lead to normal returns. -/
theorem empty_result_no_write_witness :
    ((collectBalancing "c" "a" (fun _ => Except.ok []) process_types).2 = []) ∧
    ((fetchAndStoreData "c" "a" (fun _ => Except.ok []) (Except.ok ())).2 = Except.ok ()) ∧
    ((fetchAndStoreDayahead "c" "b" (Except.ok []) (Except.ok ())).2 = Except.ok ()) :=
  ⟨rfl,
   (empty_result_no_write "c" "a" "b" (fun _ => Except.ok [])
     (Except.ok ()) (Except.ok ()) [] rfl rfl).1.1,
   (empty_result_no_write "c" "a" "b" (fun _ => Except.ok [])
     (Except.ok ()) (Except.ok ()) [] rfl rfl).2.1⟩

/-- The refined loop's data is the concatenation of each process type's
own contribution. -/
lemma collectBalancingPartial_records (country ca : String)
    (fetch : String → FetchStep) (pts : List String) :
    (collectBalancingPartial country ca fetch pts).2 =
      (pts.map (partialRecordsOf country ca fetch)).flatten := by
  induction pts with
  | nil => simp [collectBalancingPartial]
  | cons q rest ih =>
    simp only [collectBalancingPartial, List.map_cons, List.flatten_cons]
    cases hf : fetch q with
    | failed e => simp [partialRecordsOf, hf, ih]
    | fetched doc =>
      cases hp : (parseTimeSeries country ca q doc).2 with
      | error e2 => simp [partialRecordsOf, hf, hp, ih]
      | ok u => simp [partialRecordsOf, hf, hp, ih]

/-- A process type whose fetch or whose parse fails leaves its error log
line in the refined loop's trace. -/
lemma collectBalancingPartial_logs (country ca : String)
    (fetch : String → FetchStep) (pts : List String) (q e : String)
    (hmem : q ∈ pts)
    (herr : fetch q = FetchStep.failed e ∨
      ∃ doc, fetch q = FetchStep.fetched doc ∧
        (parseTimeSeries country ca q doc).2 = Except.error e) :
    Action.logError ("Failed to fetch " ++ q ++ ": " ++ e) ∈
      (collectBalancingPartial country ca fetch pts).1 := by
  induction pts with
  | nil => cases hmem
  | cons p rest ih =>
    simp only [collectBalancingPartial]
    rcases List.mem_cons.mp hmem with h | h
    · subst h
      rcases herr with hf | ⟨doc, hf, hp⟩
      · simp [hf]
      · simp [hf, hp]
    · have htail := ih h
      cases hf2 : fetch p with
      | failed e2 =>
        simp only [hf2]
        exact List.mem_cons_of_mem _ htail
      | fetched doc2 =>
        cases hp2 : (parseTimeSeries country ca p doc2).2 with
        | error e3 =>
          simp only [hf2, hp2]
          exact List.mem_cons_of_mem _ htail
        | ok u =>
          simp only [hf2, hp2]
          exact htail

/-- C8 as stated is false on the code: under `badFetch`, process type
"A51"'s parse raises mid-traversal (and is logged), yet the record
appended to the shared data list before the exception is kept, so that
process type does contribute records. -/
theorem partial_records_counterexample :
    (parseTimeSeries "c" "a" "A51" badDoc).2 = Except.error "Period parse failed" ∧
    Action.logError "Failed to fetch A51: Period parse failed" ∈
      (collectBalancingPartial "c" "a" badFetch process_types).1 ∧
    (collectBalancingPartial "c" "a" badFetch process_types).2 ≠ [] :=
  ⟨rfl, by decide, by decide⟩

/-- C8 amended: when the fetch or the parse of one process type raises,
the exception is caught and logged, that process type contributes exactly
the records already appended to the shared data list before the
exception (none when the fetch itself failed), and the remaining process
types in the list are still processed, each contributing its own
records. -/
theorem process_type_failure_kept (country ca : String)
    (fetch : String → FetchStep) (db : Except String Unit)
    (pt : String) (hmem : pt ∈ process_types) :
    (∀ e, fetch pt = FetchStep.failed e →
      Action.logError ("Failed to fetch " ++ pt ++ ": " ++ e) ∈
        (fetchAndStoreDataPartial country ca fetch db).1 ∧
      partialRecordsOf country ca fetch pt = []) ∧
    (∀ doc e, fetch pt = FetchStep.fetched doc →
      (parseTimeSeries country ca pt doc).2 = Except.error e →
      Action.logError ("Failed to fetch " ++ pt ++ ": " ++ e) ∈
        (fetchAndStoreDataPartial country ca fetch db).1 ∧
      partialRecordsOf country ca fetch pt = (parseTimeSeries country ca pt doc).1) ∧
    (collectBalancingPartial country ca fetch process_types).2 =
      (process_types.map (partialRecordsOf country ca fetch)).flatten := by
  have hlift : ∀ a, a ∈ (collectBalancingPartial country ca fetch process_types).1 →
      a ∈ (fetchAndStoreDataPartial country ca fetch db).1 := by
    intro a ha
    dsimp only [fetchAndStoreDataPartial]
    split
    · exact List.mem_append_left _ ha
    · split <;> exact List.mem_append_left _ ha
  refine ⟨?_, ?_, collectBalancingPartial_records country ca fetch process_types⟩
  · intro e hf
    refine ⟨hlift _ (collectBalancingPartial_logs country ca fetch process_types
      pt e hmem (Or.inl hf)), ?_⟩
    simp [partialRecordsOf, hf]
  · intro doc e hf hp
    refine ⟨hlift _ (collectBalancingPartial_logs country ca fetch process_types
      pt e hmem (Or.inr ⟨doc, hf, hp⟩)), ?_⟩
    simp [partialRecordsOf, hf]

/-- Witness for C8 amended: a fetch oracle whose request fails exactly on
"A52" contributes no records for it. -/
theorem process_type_failure_kept_witness :
    ("A52" ∈ process_types) ∧
    partialRecordsOf "c" "a"
      (fun q => if q = "A52" then FetchStep.failed "boom"
        else FetchStep.fetched []) "A52" = [] :=
  ⟨by decide,
   ((process_type_failure_kept "c" "a"
      (fun q => if q = "A52" then FetchStep.failed "boom"
        else FetchStep.fetched [])
      (Except.ok ()) "A52" (by decide)).1 "boom" rfl).2⟩

/-- C9: a point whose position sub-element is absent is still emitted,
its position defaulting to 1, so the emitted record's delivery interval
starts at the period's start time. -/
theorem missing_position_defaults (country ca pt : String)
    (ts : XTimeSeries) (period : XPeriod) (point : XPoint)
    (hpos : point.position = none)
    (hpt : point ∈ period.points) (hper : period ∈ ts.periods) :
    (recordForPoint country ca pt ts period point).pointStart = period.startTime ∧
    recordForPoint country ca pt ts period point ∈
      recordsForProcessType country ca pt [ts] := by
  constructor
  · simp [recordForPoint, hpos, get_time_interval]
  · simp only [recordsForProcessType, List.mem_flatMap, List.mem_map,
      List.mem_singleton]
    exact ⟨ts, rfl, period, hper, point, hpt, rfl⟩

/-- Witness for C9 on a one-point document without a position element. -/
theorem missing_position_defaults_witness :
    ((⟨none, none, none⟩ : XPoint).position = none) ∧
    (recordForPoint "c" "a" "A51"
        ⟨none, none, [⟨0, "PT15M", [⟨none, none, none⟩]⟩]⟩
        ⟨0, "PT15M", [⟨none, none, none⟩]⟩ ⟨none, none, none⟩).pointStart =
      (⟨0, "PT15M", [⟨none, none, none⟩]⟩ : XPeriod).startTime :=
  ⟨rfl,
   (missing_position_defaults "c" "a" "A51"
     ⟨none, none, [⟨0, "PT15M", [⟨none, none, none⟩]⟩]⟩
     ⟨0, "PT15M", [⟨none, none, none⟩]⟩ ⟨none, none, none⟩
     rfl (by decide) (by decide)).1⟩

/-- C10: `send_email_alert` returns normally for every input and SMTP
outcome; a failure inside the body only leaves an error log line. -/
theorem send_email_alert_total (subject message : String)
    (body : Except String Unit) :
    ∃ t, sendEmailAlert subject message body = Except.ok t ∧
      (∀ e, body = Except.error e →
        t = [Action.logError ("Failed to send alert email: " ++ e)]) := by
  cases body with
  | ok u => exact ⟨_, rfl, by intro e h; cases h⟩
  | error e => exact ⟨_, rfl, by intro e2 h; cases h; rfl⟩

/-- Witness for C10 with a failing SMTP body. -/
theorem send_email_alert_total_witness :
    ∃ t, sendEmailAlert "s" "m" (Except.error "down") = Except.ok t ∧
      (∀ e, (Except.error "down" : Except String Unit) = Except.error e →
        t = [Action.logError ("Failed to send alert email: " ++ e)]) :=
  send_email_alert_total "s" "m" (Except.error "down")

end Etl
